import Mathlib

/-!
Verification development for the telegram-expenses-bot repository.

The program is shallowly embedded: text is `List Char`, Python regular
expressions used by the source are embedded through a small derivative-based
regular-expression engine, the Postgres tables behind
`src/expenses_bot/db.py` become explicit record stores, and the handler
coroutines become pure state-transition functions.  SQL uniqueness indexes
are modelled by the explicit conflict check the partial unique indexes
perform, and `asyncpg` transaction rollback is modelled by returning the
pre-call state on the failing path.
-/

namespace ExpensesBot

abbrev Str := List Char

/-- ASCII decimal digit `0`-`9`. -/
def isAsciiDigit (c : Char) : Bool := 48 ≤ c.toNat && c.toNat ≤ 57

/-- Whitespace as matched by Python's `\s` / `str.isspace`, restricted to the
character repertoire the program handles (ASCII controls, NBSP, NEL and the
Unicode space separators). -/
def pyWs (c : Char) : Bool :=
  let n := c.toNat
  (9 ≤ n && n ≤ 13) || n == 32 || n == 0x1C || n == 0x1D || n == 0x1E || n == 0x1F ||
    n == 0x85 || n == 0xA0 || n == 0x1680 || (0x2000 ≤ n && n ≤ 0x200A) ||
    n == 0x2028 || n == 0x2029 || n == 0x202F || n == 0x205F || n == 0x3000

/-- `str.isalpha` restricted to the scripts the program handles: ASCII
letters plus the letters (Lo/Lm) of the Unicode Arabic block. -/
def pyIsAlpha (c : Char) : Bool :=
  let n := c.toNat
  (65 ≤ n && n ≤ 90) || (97 ≤ n && n ≤ 122) ||
    (0x620 ≤ n && n ≤ 0x64A) || n == 0x66E || n == 0x66F ||
    (0x671 ≤ n && n ≤ 0x6D3) || n == 0x6D5 || n == 0x6E5 || n == 0x6E6 ||
    n == 0x6EE || n == 0x6EF || (0x6FA ≤ n && n ≤ 0x6FF)

/-- Unicode decimal digit (`\d`, `str.isdigit`) over the program's scripts:
ASCII, Arabic-Indic and Extended (Persian) Arabic-Indic digits. -/
def pyIsDigit (c : Char) : Bool :=
  let n := c.toNat
  (48 ≤ n && n ≤ 57) || (0x660 ≤ n && n ≤ 0x669) || (0x6F0 ≤ n && n ≤ 0x6F9)

/-- Word character for `\b` (`[0-9a-zA-Z_]` plus Unicode letters/digits). -/
def pyIsWord (c : Char) : Bool := pyIsAlpha c || pyIsDigit c || c == '_'

/-- Python `str.strip()` (strip leading and trailing whitespace). -/
def pyStrip (s : Str) : Str :=
  ((s.dropWhile pyWs).reverse.dropWhile pyWs).reverse

/-- ASCII lowercasing, for `re.IGNORECASE` over the ASCII keywords used. -/
def asciiLower (c : Char) : Char :=
  if 65 ≤ c.toNat && c.toNat ≤ 90 then Char.ofNat (c.toNat + 32) else c

/-! ### Digit-script normalisation (`parser.py` lines 6-7, 68-69) -/

/-- `FA_TO_EN_DIGITS`: Extended (Persian) Arabic-Indic digit to ASCII. -/
def faToEn (c : Char) : Char :=
  if c = '۰' then '0' else if c = '۱' then '1'
  else if c = '۲' then '2' else if c = '۳' then '3'
  else if c = '۴' then '4' else if c = '۵' then '5'
  else if c = '۶' then '6' else if c = '۷' then '7'
  else if c = '۸' then '8' else if c = '۹' then '9' else c

/-- `AR_TO_EN_DIGITS`: Arabic-Indic digit to ASCII. -/
def arToEn (c : Char) : Char :=
  if c = '٠' then '0' else if c = '١' then '1'
  else if c = '٢' then '2' else if c = '٣' then '3'
  else if c = '٤' then '4' else if c = '٥' then '5'
  else if c = '٦' then '6' else if c = '٧' then '7'
  else if c = '٨' then '8' else if c = '٩' then '9' else c

/-- `normalize_digits`: translate Persian digits, then Arabic-Indic digits,
to ASCII (`text.translate(FA_TO_EN_DIGITS).translate(AR_TO_EN_DIGITS)`). -/
def normalize_digits (s : Str) : Str := (s.map faToEn).map arToEn

/-! ### A small regular-expression engine (Brzozowski derivatives)

Used to embed the `re` patterns of `parser.py` and
`src/expenses_bot/handlers.py` faithfully. -/

inductive RE where
  | fail : RE
  | eps : RE
  | cls : (Char → Bool) → RE
  | alt : RE → RE → RE
  | cat : RE → RE → RE
  | star : RE → RE

def nullable : RE → Bool
  | .fail => false
  | .eps => true
  | .cls _ => false
  | .alt a b => nullable a || nullable b
  | .cat a b => nullable a && nullable b
  | .star _ => true

/-- Simplifying `alt` (keeps derivative terms small). -/
def mkAlt : RE → RE → RE
  | .fail, r => r
  | r, .fail => r
  | a, b => .alt a b

/-- Simplifying `cat`. -/
def mkCat : RE → RE → RE
  | .fail, _ => .fail
  | _, .fail => .fail
  | .eps, r => r
  | r, .eps => r
  | a, b => .cat a b

def rderiv (c : Char) : RE → RE
  | .fail => .fail
  | .eps => .fail
  | .cls p => if p c then .eps else .fail
  | .alt a b => mkAlt (rderiv c a) (rderiv c b)
  | .cat a b =>
    if nullable a then mkAlt (mkCat (rderiv c a) b) (rderiv c b)
    else mkCat (rderiv c a) b
  | .star a => mkCat (rderiv c a) (.star a)

/-- Whole-string match (Python `re.fullmatch` / an anchored `^...$` match). -/
def reMatch (r : RE) (s : Str) : Bool :=
  nullable (s.foldl (fun r c => rderiv c r) r)

def anyCh : RE := .cls fun _ => true

/-- Python `re.search`: some contiguous substring matches. -/
def reSearch (r : RE) (s : Str) : Bool :=
  reMatch (mkCat (.star anyCh) (mkCat r (.star anyCh))) s

/-- Literal character sequence. -/
def lit (s : Str) : RE := s.foldr (fun c r => mkCat (.cls fun x => x = c) r) .eps

def litS (s : String) : RE := lit s.toList

/-- `\s*` -/
def ws0 : RE := .star (.cls pyWs)

/-- `\s+` -/
def ws1 : RE := .cat (.cls pyWs) ws0

/-- `\S+` / `[^\s]+` -/
def nonWs1 : RE := .cat (.cls fun c => !pyWs c) (.star (.cls fun c => !pyWs c))

/-- `(?:r)?` -/
def reOpt (r : RE) : RE := .alt r .eps

/-- at most `n` repetitions of `r` -/
def atMost : Nat → RE → RE
  | 0, _ => .eps
  | n + 1, r => reOpt (.cat r (atMost n r))

/-- between 1 and `n` repetitions of `r` -/
def rep1To (n : Nat) (r : RE) : RE := .cat r (atMost (n - 1) r)

/-! ### Direction patterns (`parser.py` lines 9-58)

Each definition embeds one raw regular-expression string of the source, in
source order.  `(?:a|b)` becomes `.alt`, `\s*` becomes `ws0`, `\S+` becomes
`nonWs1`, `(?:x)?` becomes `reOpt`. -/

-- r"باید\s*(?:بهم|به\s*من)\s*بده"
def behamOrBeMan : RE :=
  .alt (litS "بهم")
    (.cat (litS "به") (.cat ws0 (litS "من")))

def recv1 : RE :=
  .cat (litS "باید") (.cat ws0 (.cat behamOrBeMan
    (.cat ws0 (litS "بده"))))

-- r"باید\s*پول(?:ش)?\s*(?:رو)?\s*(?:بهم|به\s*من)\s*بده"
def recv2 : RE :=
  .cat (litS "باید") (.cat ws0
    (.cat (litS "پول") (.cat (reOpt (litS "ش"))
      (.cat ws0 (.cat (reOpt (litS "رو"))
        (.cat ws0 (.cat behamOrBeMan (.cat ws0 (litS "بده")))))))))

-- r"(?:بهم|به\s*من)\s*بدهکار(?:ه|است)?"
def recv3 : RE :=
  .cat behamOrBeMan (.cat ws0
    (.cat (litS "بدهکار")
      (reOpt (.alt (litS "ه") (litS "است")))))

-- r"بدهکار(?:ه|است)?\s*(?:بهم|به\s*من)"
def recv4 : RE :=
  .cat (litS "بدهکار")
    (.cat (reOpt (.alt (litS "ه") (litS "است")))
      (.cat ws0 behamOrBeMan))

-- r"از\s*\S+\s*طلب\s*دارم"
def recv5 : RE :=
  .cat (litS "از") (.cat ws0 (.cat nonWs1 (.cat ws0
    (.cat (litS "طلب") (.cat ws0 (litS "دارم"))))))

-- r"طلب(?:کار)?(?:م|ه)?"
def recv6 : RE :=
  .cat (litS "طلب")
    (.cat (reOpt (litS "کار"))
      (reOpt (.alt (litS "م") (litS "ه"))))

-- r"طلبم\s*از\s*\S+"
def recv7 : RE :=
  .cat (litS "طلبم") (.cat ws0
    (.cat (litS "از") (.cat ws0 nonWs1)))

-- r"\S+\s*باید\s*بده"
def recv8 : RE :=
  .cat nonWs1 (.cat ws0 (.cat (litS "باید")
    (.cat ws0 (litS "بده"))))

-- r"\S+\s*باید\s*پول\s*بده"
def recv9 : RE :=
  .cat nonWs1 (.cat ws0 (.cat (litS "باید")
    (.cat ws0 (.cat (litS "پول") (.cat ws0 (litS "بده"))))))

-- r"قراره\s*(?:بهم|به\s*من)\s*بده"
def recv10 : RE :=
  .cat (litS "قراره") (.cat ws0
    (.cat behamOrBeMan (.cat ws0 (litS "بده"))))

-- r"قرار(?:ه|بود)?\s*پول\s*بده"
def recv11 : RE :=
  .cat (litS "قرار")
    (.cat (reOpt (.alt (litS "ه") (litS "بود")))
      (.cat ws0 (.cat (litS "پول") (.cat ws0 (litS "بده")))))

-- r"باید\s*(?:بهم|به\s*من)\s*واریز\s*کنه"
def recv12 : RE :=
  .cat (litS "باید") (.cat ws0 (.cat behamOrBeMan
    (.cat ws0 (.cat (litS "واریز")
      (.cat ws0 (litS "کنه"))))))

-- r"واریز\s*کن(?:ه)?"
def recv13 : RE :=
  .cat (litS "واریز") (.cat ws0
    (.cat (litS "کن") (reOpt (litS "ه"))))

-- r"بده\s*حساب\s*شه"
def recv14 : RE :=
  .cat (litS "بده") (.cat ws0
    (.cat (litS "حساب") (.cat ws0 (litS "شه"))))

def RECEIVABLE_PATTERNS : List RE :=
  [recv1, recv2, recv3, recv4, recv5, recv6, recv7, recv8, recv9, recv10,
   recv11, recv12, recv13, recv14]

-- r"باید\s*بدم"
def pay1 : RE :=
  .cat (litS "باید") (.cat ws0 (litS "بدم"))

-- r"باید\s*پول\s*بدم"
def pay2 : RE :=
  .cat (litS "باید") (.cat ws0
    (.cat (litS "پول") (.cat ws0 (litS "بدم"))))

-- r"باید\s*به\s*\S+\s*بدم"
def pay3 : RE :=
  .cat (litS "باید") (.cat ws0
    (.cat (litS "به") (.cat ws0 (.cat nonWs1 (.cat ws0 (litS "بدم"))))))

-- r"باید\s*پول(?:ش)?\s*رو\s*به\s*\S+\s*بدم"
def pay4 : RE :=
  .cat (litS "باید") (.cat ws0
    (.cat (litS "پول") (.cat (reOpt (litS "ش"))
      (.cat ws0 (.cat (litS "رو") (.cat ws0
        (.cat (litS "به") (.cat ws0 (.cat nonWs1
          (.cat ws0 (litS "بدم")))))))))))

-- r"بدهکار(?:م|هستم)?"
def pay5 : RE :=
  .cat (litS "بدهکار")
    (reOpt (.alt (litS "م") (litS "هستم")))

-- r"من\s*بدهکار(?:م|هستم)?"
def pay6 : RE :=
  .cat (litS "من") (.cat ws0
    (.cat (litS "بدهکار")
      (reOpt (.alt (litS "م") (litS "هستم")))))

-- r"قرض\s*گرفتم"
def pay7 : RE :=
  .cat (litS "قرض") (.cat ws0 (litS "گرفتم"))

-- r"از\s*\S+\s*قرض\s*گرفتم"
def pay8 : RE :=
  .cat (litS "از") (.cat ws0 (.cat nonWs1 (.cat ws0
    (.cat (litS "قرض") (.cat ws0 (litS "گرفتم"))))))

-- r"باید\s*تسویه\s*کنم"
def pay9 : RE :=
  .cat (litS "باید") (.cat ws0
    (.cat (litS "تسویه") (.cat ws0 (litS "کنم"))))

-- r"تسویه\s*حساب"
def pay10 : RE :=
  .cat (litS "تسویه") (.cat ws0 (litS "حساب"))

-- r"باید\s*پرداخت\s*کنم"
def pay11 : RE :=
  .cat (litS "باید") (.cat ws0
    (.cat (litS "پرداخت") (.cat ws0 (litS "کنم"))))

-- r"باید\s*واریز\s*کنم"
def pay12 : RE :=
  .cat (litS "باید") (.cat ws0
    (.cat (litS "واریز") (.cat ws0 (litS "کنم"))))

-- r"واریز\s*بدم"
def pay13 : RE :=
  .cat (litS "واریز") (.cat ws0 (litS "بدم"))

-- r"بدم\s*حساب\s*شه"
def pay14 : RE :=
  .cat (litS "بدم") (.cat ws0
    (.cat (litS "حساب") (.cat ws0 (litS "شه"))))

def PAYABLE_PATTERNS : List RE :=
  [pay1, pay2, pay3, pay4, pay5, pay6, pay7, pay8, pay9, pay10, pay11,
   pay12, pay13, pay14]

-- SHORT_PAYABLE_RE = r"^\s*\d{1,12}\s*(?:تومن|تومان|ریال)?\s*به\s+[^\s]+\s*$"
-- Anchored at both ends, so `.search` is a whole-string match (the `$`
-- newline subtlety does not arise: inputs reaching it are stripped).
def SHORT_PAYABLE_RE : RE :=
  .cat ws0 (.cat (rep1To 12 (.cls isAsciiDigit)) (.cat ws0
    (.cat (reOpt (.alt (litS "تومن")
        (.alt (litS "تومان") (litS "ریال"))))
      (.cat ws0 (.cat (litS "به") (.cat ws1 (.cat nonWs1 ws0)))))))

/-- `detect_direction` (`parser.py` lines 100-111). -/
def detect_direction (t : Str) : String :=
  if RECEIVABLE_PATTERNS.any (fun p => reSearch p t) then "receivable"
  else if PAYABLE_PATTERNS.any (fun p => reSearch p t) then "payable"
  else if reMatch SHORT_PAYABLE_RE t then "payable"
  else "expense"

/-! ### Counterparty extraction (`parser.py` lines 113-135)

The three heuristics are `re.search` calls with one capture group; they are
embedded as direct leftmost-match scanners.  For `KW\s+([^\s]+)` the greedy
capture at the leftmost matching position is exactly the maximal non-space
run after the first whitespace block following the literal; for
`([^\s]+)\s+باید` it is the non-space run starting at the leftmost position
from which whitespace and then the literal follow. -/

/-- Drop the literal `kw` from the front of `s` (`none` if not a prefix). -/
def dropLit : Str → Str → Option Str
  | [], s => some s
  | _, [] => none
  | k :: ks, c :: cs => if c = k then dropLit ks cs else none

/-- One attempt of `KW\s+([^\s]+)` at the current position. -/
def grabAfterAt (kw : Str) (s : Str) : Option Str := do
  let rest ← dropLit kw s
  let sp := rest.takeWhile pyWs
  if sp.isEmpty then none
  else
    let tok := (rest.drop sp.length).takeWhile (fun c => !pyWs c)
    if tok.isEmpty then none else some tok

/-- Leftmost match of `re.search(KW + r"\s+([^\s]+)", s)`, capture group 1. -/
def grabAfter (kw : Str) : Str → Option Str
  | [] => none
  | c :: cs =>
    match grabAfterAt kw (c :: cs) with
    | some tok => some tok
    | none => grabAfter kw cs

/-- One attempt of `([^\s]+)\s+باید` at the current position. -/
def grabBeforeAt (s : Str) : Option Str :=
  let run := s.takeWhile (fun c => !pyWs c)
  if run.isEmpty then none
  else
    let rest := s.drop run.length
    let sp := rest.takeWhile pyWs
    if sp.isEmpty then none
    else
      match dropLit (String.toList "باید") (rest.drop sp.length) with
      | some _ => some run
      | none => none

/-- Leftmost match of `re.search(r"([^\s]+)\s+باید", s)`, capture group 1. -/
def grabBefore : Str → Option Str
  | [] => none
  | c :: cs =>
    match grabBeforeAt (c :: cs) with
    | some tok => some tok
    | none => grabBefore cs

/-- Pronouns excluded by heuristic 2 of `extract_person`. -/
def fromExclusions : List Str :=
  [String.toList "من", String.toList "خودم",
   String.toList "خودمون", String.toList "خودت",
   String.toList "خودتون"]

/-- Generic words excluded by heuristic 3 of `extract_person`. -/
def beforeExclusions : List Str :=
  [String.toList "من", String.toList "یه",
   String.toList "یک", String.toList "این",
   String.toList "اون", String.toList "او",
   String.toList "ایشون"]

/-- Heuristic 3 of `extract_person` (`parser.py` lines 127-135). -/
def personHeuristic3 (t : Str) : Option Str :=
  match grabBefore t with
  | some cand => if beforeExclusions.contains cand then none else some cand
  | none => none

/-- `extract_person` (`parser.py` lines 113-135). -/
def extract_person (t : Str) (direction : String) : Option Str :=
  let h1 : Option Str :=
    if direction = "payable" then grabAfter (String.toList "به") t else none
  match h1 with
  | some p => some p
  | none =>
    match grabAfter (String.toList "از") t with
    | some cand =>
      if fromExclusions.contains cand then personHeuristic3 t else some cand
    | none => personHeuristic3 t

/-! ### Amount extraction (`parser.py` lines 57, 71-98)

`AMOUNT_RE = (?<!\d)(\d{1,12})(?!\d)`: over a fixed text its matches, in
order, are exactly the maximal runs of ASCII digits of length 1 to 12.  A
match is represented as `(before, run, after)` with
`text = before ++ run ++ after`. -/

structure AmountMatch where
  before : Str
  run : Str
  after : Str
deriving Repr, DecidableEq

/-- Fuelled scanner for the maximal digit runs (the fuel, at least the
remaining length, makes the function structurally recursive and hence
kernel-computable; every step consumes at least one character). -/
def digitRunsGo (fuel : Nat) (before s : Str) : List AmountMatch :=
  match fuel, s with
  | 0, _ => []
  | _ + 1, [] => []
  | f + 1, c :: cs =>
    if isAsciiDigit c then
      let run := c :: cs.takeWhile isAsciiDigit
      let rest := cs.dropWhile isAsciiDigit
      ⟨before, run, rest⟩ :: digitRunsGo f (before ++ run) rest
    else digitRunsGo f (before ++ [c]) cs

/-- All maximal ASCII-digit runs of `s`, with their contexts. -/
def digitRuns (before s : Str) : List AmountMatch :=
  digitRunsGo s.length before s

/-- The matches of `AMOUNT_RE.finditer(text)`. -/
def amountMatches (t : Str) : List AmountMatch :=
  (digitRuns [] t).filter (fun m => m.run.length ≤ 12)

/-- Digit run to its numeric value (`int(m.group(1))`). -/
def runVal (r : Str) : Nat :=
  r.foldl (fun acc c => acc * 10 + (c.toNat - 48)) 0

/-- The text right after the candidate starts with `.` or `٫` that is
itself followed by whitespace or a letter (`parser.py` lines 90-94). -/
def dotCond (after : Str) : Bool :=
  match after with
  | c :: rest =>
    (c = '.' || c = '٫') &&
      (match rest with
       | c2 :: _ => pyWs c2 || pyIsAlpha c2
       | [] => false)
  | [] => false

/-- The rejection test of the `extract_amount` loop: the candidate starts
the (stripped) text and satisfies `dotCond`. -/
def listIndexReject (m : AmountMatch) : Bool :=
  (pyStrip m.before).isEmpty && dotCond m.after

/-- The `for m in matches` loop of `extract_amount`: first match whose
prefix is non-empty after stripping, or that fails the list-index test. -/
def amountLoop : List AmountMatch → Option Nat
  | [] => none
  | m :: rest =>
    if !(pyStrip m.before).isEmpty then some (runVal m.run)
    else if listIndexReject m then amountLoop rest
    else some (runVal m.run)

/-- `extract_amount` (`parser.py` lines 71-98). -/
def extract_amount (t : Str) : Option Nat :=
  match amountMatches t with
  | [] => none
  | m0 :: rest =>
    match amountLoop (m0 :: rest) with
    | some v => some v
    | none => some (runVal m0.run)

/-! ### `parse_message` (`parser.py` lines 146-162)

The `description` and `raw` fields of the Python `Parsed` dataclass are not
modelled: no claim concerns them.  A `none` result models the
`ValueError("No amount found in message")` raised when no amount exists. -/

structure ParsedMsg where
  amount : Nat
  direction : String
  person : Option Str
deriving Repr, DecidableEq

def parse_message (raw : Str) : Option ParsedMsg :=
  let norm := normalize_digits raw
  (extract_amount norm).map fun amount =>
    let direction := detect_direction norm
    ⟨amount, direction, extract_person norm direction⟩

/-! ### Transaction store (`src/expenses_bot/db.py`)

One row of the `transactions` table (`user_tx_id` is always set by
`insert_transaction`, so it is not optional here); `user_counters` is an
association list `user_id ↦ next_tx_id`; `user_flows` is a list with at
most one row per user.  Timestamps are UTC seconds as integers.  The three
partial unique indexes (`ux_tx_telegram_update_id`,
`ux_tx_telegram_chat_message`, `ux_tx_user_user_tx_id`) are modelled by the
explicit `txConflict` check that `ON CONFLICT DO NOTHING` performs. -/

structure TxRow where
  user_id : Int
  user_tx_id : Int
  telegram_update_id : Option Int
  telegram_chat_id : Option Int
  telegram_message_id : Option Int
  amount : Int
  direction : String
  person : Option String
  description : String
  raw : String
  created_at : Int
deriving Repr, DecidableEq

/-- The `parsed` dict consumed by `insert_transaction` / `update_transaction`
(`parsed["amount"]`, `parsed["direction"]`, `parsed.get("person")`,
`parsed.get("description")`, `parsed.get("raw")`). -/
structure ParsedFields where
  amount : Int
  direction : String
  person : Option String
  description : Option String
  raw : Option String
deriving Repr, DecidableEq

/-- One persisted dialogue state (`user_flows` row).  The JSONB `flow`
document always holds the keys written by `new_flow`, so it is modelled as
a typed record. -/
structure Flow where
  mode : String
  tx_id : Option Int
  step : String
  direction : Option String
  person : Option String
  amount : Option Int
  description : Option String
deriving Repr, DecidableEq

structure FlowRow where
  user_id : Int
  chat_id : Option Int
  flow : Flow
  updated_at : Int
deriving Repr, DecidableEq

structure DBState where
  transactions : List TxRow
  counters : List (Int × Int)
  flows : List FlowRow
deriving Repr, DecidableEq

def counterLookup (cs : List (Int × Int)) (uid : Int) : Option Int :=
  (cs.find? (fun p => p.1 = uid)).map (·.2)

def setCounter (cs : List (Int × Int)) (uid v : Int) : List (Int × Int) :=
  match cs with
  | [] => [(uid, v)]
  | (u, w) :: rest =>
    if u = uid then (u, v) :: rest else (u, w) :: setCounter rest uid v

/-- Violation of `ux_tx_telegram_update_id` (unique where not null). -/
def updIdConflict (q r : TxRow) : Bool :=
  match r.telegram_update_id, q.telegram_update_id with
  | some a, some b => a = b
  | _, _ => false

/-- Violation of `ux_tx_telegram_chat_message` (unique where both not null). -/
def chatMsgConflict (q r : TxRow) : Bool :=
  match r.telegram_chat_id, r.telegram_message_id,
      q.telegram_chat_id, q.telegram_message_id with
  | some c, some m, some c2, some m2 => c = c2 && m = m2
  | _, _, _, _ => false

/-- Violation of `ux_tx_user_user_tx_id`. -/
def userTxConflict (q r : TxRow) : Bool :=
  q.user_id = r.user_id && q.user_tx_id = r.user_tx_id

/-- Would inserting `r` hit any of the three unique indexes? -/
def txConflict (rows : List TxRow) (r : TxRow) : Bool :=
  rows.any (fun q => updIdConflict q r || chatMsgConflict q r || userTxConflict q r)

/-- The value the counter upsert of `insert_transaction` returns: `2` when
the user has no counter row yet (`VALUES ($1, 2)`), otherwise
`next_tx_id + 1`. -/
def counterNext (cs : List (Int × Int)) (uid : Int) : Int :=
  match counterLookup cs uid with
  | none => 2
  | some v => v + 1

/-- The candidate row `insert_transaction` builds (`user_tx_id` is the
allocated value minus one, per `SELECT (next_tx_id - 1) FROM upsert`). -/
def insertRow (parsed : ParsedFields) (user_id : Int)
    (telegram_update_id telegram_chat_id telegram_message_id : Option Int)
    (created_at : Int) (s : DBState) : TxRow :=
  { user_id := user_id, user_tx_id := counterNext s.counters user_id - 1,
    telegram_update_id := telegram_update_id,
    telegram_chat_id := telegram_chat_id,
    telegram_message_id := telegram_message_id,
    amount := parsed.amount, direction := parsed.direction,
    person := parsed.person, description := parsed.description.getD "",
    raw := parsed.raw.getD "", created_at := created_at }

/-- The duplicate-path lookups of `insert_transaction` (`db.py` lines
306-323): first by `telegram_update_id`, then by the chat/message pair,
both scoped to the caller's `user_id`. -/
def dupLookup (user_id : Int)
    (telegram_update_id telegram_chat_id telegram_message_id : Option Int)
    (rows : List TxRow) : Option TxRow :=
  let byUpd : Option TxRow :=
    match telegram_update_id with
    | some u => rows.find?
        (fun q => q.telegram_update_id = some u && q.user_id = user_id)
    | none => none
  match byUpd with
  | some q => some q
  | none =>
    match telegram_chat_id, telegram_message_id with
    | some c, some m => rows.find?
        (fun q => q.telegram_chat_id = some c &&
          q.telegram_message_id = some m && q.user_id = user_id)
    | _, _ => none

/-- `insert_transaction` (`src/expenses_bot/db.py` lines 225-326).

The counter upsert and the row insert run inside `conn.transaction()`; when
the insert hits `ON CONFLICT DO NOTHING`, the code raises
`RuntimeError("duplicate")` out of that block, so the whole database
transaction — including the counter increment — is rolled back, and the
duplicate lookups then run against the unchanged store.  `.error` models
the `RuntimeError("Insert conflict but existing row not found")` escape. -/
def insert_transaction (parsed : ParsedFields) (user_id : Int)
    (telegram_update_id telegram_chat_id telegram_message_id : Option Int)
    (created_at : Int) (s : DBState) : Except String Int × DBState :=
  let row := insertRow parsed user_id telegram_update_id telegram_chat_id
    telegram_message_id created_at s
  if txConflict s.transactions row then
    match dupLookup user_id telegram_update_id telegram_chat_id
        telegram_message_id s.transactions with
    | some q => (.ok q.user_tx_id, s)
    | none => (.error "Insert conflict but existing row not found", s)
  else
    (.ok row.user_tx_id,
      { s with counters := setCounter s.counters user_id
                 (counterNext s.counters user_id),
               transactions := s.transactions ++ [row] })

/-- `get_transaction` (`db.py` lines 415-446); the row stands for the
returned dict. -/
def get_transaction (user_id tx_id : Int) (s : DBState) : Option TxRow :=
  s.transactions.find? (fun q => q.user_id = user_id && q.user_tx_id = tx_id)

/-- `delete_transaction` (`db.py` lines 449-468): `DELETE ... WHERE
user_tx_id = $1 AND user_id = $2`, returning whether any row was deleted. -/
def delete_transaction (user_id tx_id : Int) (s : DBState) : Bool × DBState :=
  let remaining := s.transactions.filter
    (fun q => !(q.user_tx_id = tx_id && q.user_id = user_id))
  (decide (remaining.length < s.transactions.length),
    { s with transactions := remaining })

/-- `update_transaction` (`db.py` lines 471-507). -/
def update_transaction (parsed : ParsedFields) (user_id tx_id : Int)
    (s : DBState) : Bool × DBState :=
  let hit (q : TxRow) : Bool := q.user_tx_id = tx_id && q.user_id = user_id
  let txs := s.transactions.map (fun q =>
    if hit q then
      { q with amount := parsed.amount, direction := parsed.direction,
               person := parsed.person,
               description := parsed.description.getD "",
               raw := parsed.raw.getD "" }
    else q)
  (s.transactions.any hit, { s with transactions := txs })

/-! ### Dialogue-state persistence (`db.py` lines 13, 158-222) -/

def FLOW_TTL_SECONDS : Int := 60 * 60 * 24

def clear_user_flow (uid : Int) (s : DBState) : DBState :=
  { s with flows := s.flows.filter (fun r => !(r.user_id = uid)) }

/-- `set_user_flow`: upsert of the single per-user row (`updated_at = NOW()`
is the `now` argument). -/
def set_user_flow (flow : Flow) (uid : Int) (chat : Option Int) (now : Int)
    (s : DBState) : DBState :=
  { s with flows := (s.flows.filter (fun r => !(r.user_id = uid))) ++
      [⟨uid, chat, flow, now⟩] }

/-- `chat_id is not None and saved_chat_id is not None and saved != chat`
(`db.py` line 174). -/
def chatMismatch (chat saved : Option Int) : Bool :=
  match chat, saved with
  | some c, some sc => !(sc = c)
  | _, _ => false

/-- `get_user_flow` (`db.py` lines 158-192).  The stored JSONB document is
structured, so the `json.loads` recovery branch cannot fire and is not
modelled. -/
def get_user_flow (uid : Int) (chat : Option Int) (now : Int) (s : DBState) :
    Option Flow × DBState :=
  match s.flows.find? (fun r => r.user_id = uid) with
  | none => (none, s)
  | some r =>
    if chatMismatch chat r.chat_id then (none, clear_user_flow uid s)
    else if now - r.updated_at > FLOW_TTL_SECONDS then
      (none, clear_user_flow uid s)
    else (some r.flow, s)

/-! ### Guided-flow helpers (`src/expenses_bot/flow.py`) -/

/-- `new_flow` (`flow.py` lines 29-38). -/
def new_flow (mode : String) (tx_id : Option Int) : Flow :=
  { mode := mode, tx_id := tx_id, step := "choose_type", direction := none,
    person := none, amount := none, description := none }

/-- Fuelled worker for `collapseWs` (fuel at least the remaining length,
for structural recursion; every step consumes at least one character). -/
def collapseWsGo (fuel : Nat) (s : Str) : Str :=
  match fuel, s with
  | 0, _ => []
  | _ + 1, [] => []
  | f + 1, c :: cs =>
    if pyWs c && !(cs.takeWhile pyWs).isEmpty then
      ' ' :: collapseWsGo f (cs.dropWhile pyWs)
    else c :: collapseWsGo f cs

/-- `re.sub(r"\s{2,}", " ", s)`: collapse each whitespace run of length at
least two to a single space (a lone whitespace character is kept as is). -/
def collapseWs (s : Str) : Str := collapseWsGo s.length s

/-- Python `str.rstrip()`. -/
def pyRStrip (s : Str) : Str := (s.reverse.dropWhile pyWs).reverse

/-- `clean_person_input` (`flow.py` lines 117-127). -/
def clean_person_input (text : Str) : Option Str :=
  let name := collapseWs (pyStrip text)
  if name.isEmpty then none
  else if name.contains '\n' || name.contains '\r' then none
  else if name.length > 40 then none
  else if name.any pyIsDigit then none
  else some name

/-- `clean_description_input` (`flow.py` lines 130-134). -/
def clean_description_input (text : Str) : Str :=
  let desc := collapseWs (pyStrip text)
  if desc.length > 200 then pyRStrip (desc.take 200) else desc

/-- Characters admitted by `[0-9,\s_.]`. -/
def amountOnlyClass (c : Char) : Bool :=
  isAsciiDigit c || c = ',' || pyWs c || c = '_' || c = '.'

/-- `parse_amount_only` (`flow.py` lines 13-26).  The anchored
`^\s*([0-9][0-9,\s_.]{0,24})\s*$` applied to the stripped text matches
exactly when the head is an ASCII digit and the tail has at most 24
characters, all from the class; the separators are then removed, leaving
ASCII digits only.  `none` models the `ValueError`s. -/
def parse_amount_only (text : Str) : Option Nat :=
  let s := pyStrip text
  match s with
  | [] => none
  | c :: rest =>
    if isAsciiDigit c && rest.length ≤ 24 && rest.all amountOnlyClass then
      some (runVal (s.filter isAsciiDigit))
    else none

/-! ### Handlers (`src/expenses_bot/handlers.py`)

The transport-side replies (message texts and keyboards) are abstracted to
a `Reply` tag carrying the flow the prompt is rendered from; the
allow-list and private-chat gates, which only filter events before the
logic runs, are outside the model. -/

inductive Reply where
  | commandHint : Reply
  | chooseTypePrompt : Reply
  | invalidName : Reply
  | invalidAmount : Reply
  | stepPrompt : Flow → Reply
  | missingFields : Reply
  | counterpartyRequired : Flow → Reply
  | invalidEditId : Reply
  | notFound : Reply
  | couldNotSave : Reply
  | saved : Int → Reply
  | greetingHelp : Reply
  | defaultHint : Reply
  | canceled : Reply
  | invalidType : Reply
  | invalidOption : Reply
  | answerOnly : Reply
deriving Repr, DecidableEq

/-- The identifiers `insert_transaction` receives from the `Update`. -/
structure UpdateMeta where
  update_id : Option Int
  chat_id : Option Int
  message_id : Option Int
deriving Repr, DecidableEq

/-- `_save_and_reply` (`handlers.py` lines 128-191). -/
def saveAndReply (uid : Int) (meta : UpdateMeta) (flow : Flow) (now : Int)
    (s : DBState) : DBState × Reply :=
  let direction := flow.direction.getD ""
  let mode := if flow.mode = "" then "add" else flow.mode
  if !(direction = "expense" || direction = "payable" ||
      direction = "receivable") || flow.amount.isNone then
    (s, .missingFields)
  else if (direction = "payable" || direction = "receivable") &&
      (pyStrip (flow.person.getD "").toList).isEmpty then
    let flow' := { flow with step := "person" }
    (set_user_flow flow' uid meta.chat_id now s, .counterpartyRequired flow')
  else
    let person0 := pyStrip (flow.person.getD "").toList
    let person1 : Option String :=
      if person0.isEmpty then none else some (String.mk person0)
    let person : Option String :=
      if direction = "expense" then none else person1
    let parsed : ParsedFields :=
      { amount := flow.amount.getD 0, direction := direction,
        person := person,
        description := some (String.mk (pyStrip (flow.description.getD "").toList)),
        raw := some "guided" }
    if mode = "edit" then
      match flow.tx_id with
      | none => (s, .invalidEditId)
      | some tid =>
        let (ok, s') := update_transaction parsed uid tid s
        if !ok then (clear_user_flow uid s', .notFound)
        else (clear_user_flow uid s', .saved tid)
    else
      match insert_transaction parsed uid meta.update_id meta.chat_id
          meta.message_id now s with
      | (.ok sid, s') => (clear_user_flow uid s', .saved sid)
      | (.error _, s') => (s', .couldNotSave)

/-- The keyword alternation of `_PROBABLY_COMMAND_RE` (`handlers.py` line 43). -/
def PROBABLY_COMMAND_KEYWORDS : List String :=
  ["edit", "delete", "last", "week", "month", "help", "menu", "hide",
   "undo", "id", "add", "cancel", "wipe_all"]

/-- Case-insensitive keyword at the head of `s`, followed by a `\b`
boundary (end of text or a non-word character). -/
def matchKwBoundary (kw : Str) (s : Str) : Bool :=
  match dropLit kw (s.map asciiLower) with
  | some rest =>
    match rest with
    | [] => true
    | c :: _ => !pyIsWord c
  | none => false

/-- `_PROBABLY_COMMAND_RE.search(raw_text)` (`handlers.py` lines 43-46):
`^\s*(?:[.]+|\d+\s*[.])\s*(edit|…|wipe_all)\b` with `re.IGNORECASE`. -/
def probablyCommand (s : Str) : Bool :=
  let s0 := s.dropWhile pyWs
  let afterHead : Option Str :=
    match s0 with
    | [] => none
    | c :: rest =>
      if c = '.' then some (rest.dropWhile (fun x => x = '.'))
      else if pyIsDigit c then
        let r1 := rest.dropWhile pyIsDigit
        let r2 := r1.dropWhile pyWs
        match r2 with
        | '.' :: r3 => some r3
        | _ => none
      else none
  match afterHead with
  | none => false
  | some r =>
    PROBABLY_COMMAND_KEYWORDS.any
      (fun kw => matchKwBoundary kw.toList (r.dropWhile pyWs))

/-- `_GREETING_RE.search(raw_text)` (`handlers.py` line 42):
`^\s*(hi|hello|hey)\b` with `re.IGNORECASE`. -/
def greetingMatch (s : Str) : Bool :=
  let s0 := s.dropWhile pyWs
  ["hi", "hello", "hey"].any (fun kw => matchKwBoundary kw.toList s0)

/-- The active-flow dispatch of `handle_text` (`handlers.py` lines
432-490, falling through to lines 492-496 on an unknown step). -/
def handle_text_flow (uid : Int) (meta : UpdateMeta) (raw_text : Str)
    (flow : Flow) (now : Int) (s1 : DBState) : DBState × Reply :=
  if flow.step = "choose_type" then (s1, .chooseTypePrompt)
  else if flow.step = "person" then
    match clean_person_input raw_text with
    | none => (s1, .invalidName)
    | some p =>
      let flow' := { flow with person := some (String.mk p), step := "amount" }
      (set_user_flow flow' uid meta.chat_id now s1, .stepPrompt flow')
  else if flow.step = "amount" then
    match parse_amount_only raw_text with
    | none => (s1, .invalidAmount)
    | some a =>
      let flow' := { flow with amount := some (Int.ofNat a), step := "description" }
      (set_user_flow flow' uid meta.chat_id now s1, .stepPrompt flow')
  else if flow.step = "description" then
    let d := clean_description_input raw_text
    let flow' :=
      { flow with description := if d.isEmpty then none else some (String.mk d) }
    saveAndReply uid meta flow' now s1
  else
    let s2 := clear_user_flow uid s1
    if greetingMatch raw_text then (s2, .greetingHelp)
    else (s2, .defaultHint)

/-- `handle_text` (`handlers.py` lines 402-496), from the point where the
event has passed the allow-list/private-chat gates and carries text. -/
def handle_text (uid : Int) (meta : UpdateMeta) (text : Str) (now : Int)
    (s : DBState) : DBState × Reply :=
  let raw_text := pyStrip text
  if probablyCommand raw_text then (s, .commandHint)
  else
    let (flowOpt, s1) := get_user_flow uid meta.chat_id now s
    match flowOpt with
    | some flow => handle_text_flow uid meta raw_text flow now s1
    | none =>
      if greetingMatch raw_text then (s1, .greetingHelp)
      else (s1, .defaultHint)

/-- The action dispatch of `add_buttons` (`handlers.py` lines 539-627),
once the flow has been loaded or freshly created. -/
def add_buttons_action (uid : Int) (meta : UpdateMeta) (action : Str)
    (flow : Flow) (now : Int) (s2 : DBState) : DBState × Reply :=
  if action = "cancel".toList then (clear_user_flow uid s2, .canceled)
  else
    match dropLit "type:".toList action with
    | some directionChars =>
      if !(flow.step = "choose_type") then (s2, .stepPrompt flow)
      else
        let direction := String.mk directionChars
        if !(direction = "expense" || direction = "payable" ||
            direction = "receivable") then
          (s2, .invalidType)
        else
          let flow1 := { flow with direction := some direction }
          let flow2 :=
            if direction = "expense" then { flow1 with person := none } else flow1
          let flow3 := { flow2 with
            step := if direction = "payable" || direction = "receivable"
              then "person" else "amount" }
          (set_user_flow flow3 uid meta.chat_id now s2, .stepPrompt flow3)
    | none =>
      if action = "person:ok".toList then
        if !(flow.step = "person") then (s2, .stepPrompt flow)
        else if !(flow.direction = some "payable" ||
            flow.direction = some "receivable") then
          (s2, .stepPrompt { flow with step := "choose_type" })
        else if (pyStrip (flow.person.getD "").toList).isEmpty then
          (s2, .stepPrompt { flow with step := "person" })
        else
          let flow' := { flow with step := "amount" }
          (set_user_flow flow' uid meta.chat_id now s2, .stepPrompt flow')
      else if action = "amount:ok".toList then
        if !(flow.step = "amount") then (s2, .stepPrompt flow)
        else if flow.amount.isNone then
          (s2, .stepPrompt { flow with step := "amount" })
        else
          let flow' := { flow with step := "description" }
          (set_user_flow flow' uid meta.chat_id now s2, .stepPrompt flow')
      else
        match dropLit "desc:".toList action with
        | some howChars =>
          if !(flow.step = "description") then (s2, .stepPrompt flow)
          else
            let how := String.mk howChars
            let existing := pyStrip (flow.description.getD "").toList
            if how = "skip" then
              saveAndReply uid meta { flow with description := none } now s2
            else if how = "keep" then
              saveAndReply uid meta
                { flow with description :=
                    if existing.isEmpty then none
                    else some (String.mk existing) } now s2
            else if how = "clear" then
              saveAndReply uid meta { flow with description := none } now s2
            else (s2, .invalidOption)
        | none => (s2, .stepPrompt flow)

/-- `add_buttons` (`handlers.py` lines 505-627), from the point where the
callback event has passed the gates; `data` is `query.data`. -/
def add_buttons (uid : Int) (meta : UpdateMeta) (data : Str) (now : Int)
    (s : DBState) : DBState × Reply :=
  let data := pyStrip data
  match dropLit "add:".toList data with
  | none => (s, .answerOnly)
  | some action =>
    let (flowOpt, s1) := get_user_flow uid meta.chat_id now s
    let (flow, s2) :=
      match flowOpt with
      | some f => (f, s1)
      | none =>
        let f := new_flow "add" none
        (f, set_user_flow f uid meta.chat_id now s1)
    add_buttons_action uid meta action flow now s2

/-! ### Free-text entry path (`src/bot.py` with `src/db.py`)

The webhook front door (`src/api/index.py`) builds its application from
`src/bot.py`, whose `handle_text` routes a parsed message straight into
`src/db.py`'s `insert_transaction`.  That store uses globally sequential
`BIGSERIAL` ids and has only the two telegram dedup indexes. -/

structure LegacyRow where
  id : Int
  user_id : Int
  telegram_update_id : Option Int
  telegram_chat_id : Option Int
  telegram_message_id : Option Int
  amount : Int
  direction : String
  person : Option String
  created_at : Int
deriving Repr, DecidableEq

structure LegacyState where
  transactions : List LegacyRow
  next_id : Int
deriving Repr, DecidableEq

def legacyConflict (rows : List LegacyRow) (r : LegacyRow) : Bool :=
  rows.any (fun q =>
    (match r.telegram_update_id, q.telegram_update_id with
     | some a, some b => a = b
     | _, _ => false) ||
    (match r.telegram_chat_id, r.telegram_message_id,
        q.telegram_chat_id, q.telegram_message_id with
     | some c, some m, some c2, some m2 => c = c2 && m = m2
     | _, _, _, _ => false))

/-- `insert_transaction` (`src/db.py` lines 86-165).  The `description` and
`raw` columns are not modelled (no claim concerns them on this path). -/
def legacy_insert_transaction (parsed : ParsedFields) (user_id : Int)
    (telegram_update_id telegram_chat_id telegram_message_id : Option Int)
    (created_at : Int) (s : LegacyState) : Except String Int × LegacyState :=
  let row : LegacyRow :=
    { id := s.next_id, user_id := user_id,
      telegram_update_id := telegram_update_id,
      telegram_chat_id := telegram_chat_id,
      telegram_message_id := telegram_message_id,
      amount := parsed.amount, direction := parsed.direction,
      person := parsed.person, created_at := created_at }
  if legacyConflict s.transactions row then
    let byUpd : Option LegacyRow :=
      match telegram_update_id with
      | some u => s.transactions.find?
          (fun q => q.telegram_update_id = some u && q.user_id = user_id)
      | none => none
    let existing : Option LegacyRow :=
      match byUpd with
      | some q => some q
      | none =>
        match telegram_chat_id, telegram_message_id with
        | some c, some m => s.transactions.find?
            (fun q => q.telegram_chat_id = some c &&
              q.telegram_message_id = some m && q.user_id = user_id)
        | _, _ => none
    match existing with
    | some q => (.ok q.id, s)
    | none => (.error "Insert conflict but existing row not found", s)
  else
    (.ok s.next_id,
      { transactions := s.transactions ++ [row], next_id := s.next_id + 1 })

/-- `_GREETING_RE` of `src/bot.py` line 42:
`^\s*(سلام|salam|hi|hello|hey)\b`, `re.IGNORECASE`. -/
def botGreetingMatch (s : Str) : Bool :=
  let s0 := s.dropWhile pyWs
  [String.toList "سلام", "salam".toList, "hi".toList,
   "hello".toList, "hey".toList].any (fun kw => matchKwBoundary kw s0)

/-- `handle_text` of `src/bot.py` (lines 381-485) on the path with no
pending inline edit: parse the stripped text and insert the parsed dict
unchanged.  The reply formatting and the `pending_edit_tx_id` update branch
are not modelled. -/
def bot_handle_text (uid : Int) (meta : UpdateMeta) (text : Str) (now : Int)
    (s : LegacyState) : LegacyState × Reply :=
  match parse_message (pyStrip text) with
  | none =>
    if botGreetingMatch (pyStrip text) then (s, .greetingHelp)
    else (s, .defaultHint)
  | some p =>
    let parsed : ParsedFields :=
      { amount := Int.ofNat p.amount, direction := p.direction,
        person := p.person.map String.mk, description := none, raw := none }
    match legacy_insert_transaction parsed uid meta.update_id meta.chat_id
        meta.message_id now s with
    | (.ok tid, s') => (s', .saved tid)
    | (.error _, s') => (s', .couldNotSave)

/-- The id `insert_transaction` allocates on a given store (the value the
counter upsert returns, minus one). -/
def allocatedId (s : DBState) (uid : Int) : Int :=
  counterNext s.counters uid - 1

/-! ### Helper lemmas -/

theorem find?_eq_none_of_all {α} (p : α → Bool) (l : List α)
    (h : ∀ x ∈ l, p x = false) : l.find? p = none := by
  induction l with
  | nil => rfl
  | cons a l ih =>
    have ha := h a (List.mem_cons_self a l)
    simp only [List.find?, ha]
    exact ih fun x hx => h x (List.mem_cons_of_mem a hx)

theorem find?_append_right {α} (p : α → Bool) (l₁ l₂ : List α)
    (h : ∀ x ∈ l₁, p x = false) :
    (l₁ ++ l₂).find? p = l₂.find? p := by
  induction l₁ with
  | nil => rfl
  | cons a l ih =>
    have ha := h a (List.mem_cons_self a l)
    simp only [List.cons_append, List.find?, ha]
    exact ih fun x hx => h x (List.mem_cons_of_mem a hx)

theorem filter_eq_nil_of_all {α} (p : α → Bool) (l : List α)
    (h : ∀ x ∈ l, p x = false) : l.filter p = [] := by
  induction l with
  | nil => rfl
  | cons a l ih =>
    have ha := h a (List.mem_cons_self a l)
    simp only [List.filter, ha]
    exact ih fun x hx => h x (List.mem_cons_of_mem a hx)

theorem filter_eq_self_of_all {α} (p : α → Bool) (l : List α)
    (h : ∀ x ∈ l, p x = true) : l.filter p = l := by
  induction l with
  | nil => rfl
  | cons a l ih =>
    have ha := h a (List.mem_cons_self a l)
    simp only [List.filter, ha]
    exact congrArg (a :: ·) (ih fun x hx => h x (List.mem_cons_of_mem a hx))

theorem map_eq_self_of_all {α} (f : α → α) (l : List α)
    (h : ∀ x ∈ l, f x = x) : l.map f = l := by
  induction l with
  | nil => rfl
  | cons a l ih =>
    simp only [List.map, h a (List.mem_cons_self a l)]
    exact congrArg (a :: ·) (ih fun x hx => h x (List.mem_cons_of_mem a hx))

theorem any_eq_false_of_all {α} (p : α → Bool) (l : List α)
    (h : ∀ x ∈ l, p x = false) : l.any p = false := by
  induction l with
  | nil => rfl
  | cons a l ih =>
    simp only [List.any, h a (List.mem_cons_self a l), Bool.false_or]
    exact ih fun x hx => h x (List.mem_cons_of_mem a hx)

/-! ### Claim C3 -/

/-- `update_transaction` preserves the expense-person invariant provided
the incoming fields satisfy it. -/
theorem update_preserves_expense_inv (parsed : ParsedFields) (uid tid : Int)
    (s : DBState)
    (hinv : ∀ r ∈ s.transactions, r.direction = "expense" → r.person = none)
    (hkey : parsed.direction = "expense" → parsed.person = none) :
    ∀ r ∈ (update_transaction parsed uid tid s).2.transactions,
      r.direction = "expense" → r.person = none := by
  intro r hr
  unfold update_transaction at hr
  dsimp only at hr
  rw [List.mem_map] at hr
  obtain ⟨q, hq, hEq⟩ := hr
  by_cases hb : (q.user_tx_id = tid && q.user_id = uid : Bool) = true
  · rw [if_pos hb] at hEq
    subst hEq
    intro hdir
    exact hkey hdir
  · rw [if_neg hb] at hEq
    subst hEq
    exact hinv q hq

/-- `insert_transaction` preserves the expense-person invariant provided
the incoming fields satisfy it. -/
theorem insert_preserves_expense_inv (parsed : ParsedFields) (uid : Int)
    (tui tci tmi : Option Int) (t : Int) (s : DBState)
    (hinv : ∀ r ∈ s.transactions, r.direction = "expense" → r.person = none)
    (hkey : parsed.direction = "expense" → parsed.person = none) :
    ∀ r ∈ (insert_transaction parsed uid tui tci tmi t s).2.transactions,
      r.direction = "expense" → r.person = none := by
  intro r hr
  unfold insert_transaction at hr
  dsimp only at hr
  by_cases hc : txConflict s.transactions (insertRow parsed uid tui tci tmi t s) = true
  · rw [if_pos hc] at hr
    have : r ∈ s.transactions := by
      revert hr
      cases dupLookup uid tui tci tmi s.transactions <;> exact id
    exact hinv r this
  · rw [if_neg hc] at hr
    have hr2 : r ∈ s.transactions ++ [insertRow parsed uid tui tci tmi t s] := hr
    rcases List.mem_append.mp hr2 with hl | hright
    · exact hinv r hl
    · rw [List.mem_singleton] at hright
      subst hright
      intro hdir
      exact hkey hdir

/-- C3 amended, guided half: `_save_and_reply` preserves the invariant
that committed `expense` transactions carry no person — it explicitly
forces `person = None` when the flow's direction is `expense`. -/
theorem C3_expense_person_guided (uid : Int) (meta : UpdateMeta) (flow : Flow)
    (now : Int) (s : DBState)
    (hinv : ∀ r ∈ s.transactions, r.direction = "expense" → r.person = none) :
    ∀ r ∈ (saveAndReply uid meta flow now s).1.transactions,
      r.direction = "expense" → r.person = none := by
  unfold saveAndReply
  dsimp only
  split
  · exact hinv
  · split
    · exact hinv
    · set P : ParsedFields :=
        { amount := flow.amount.getD 0, direction := flow.direction.getD "",
          person := if flow.direction.getD "" = "expense" then none
            else if (pyStrip (flow.person.getD "").toList).isEmpty = true then none
              else some (String.mk (pyStrip (flow.person.getD "").toList)),
          description := some (String.mk (pyStrip (flow.description.getD "").toList)),
          raw := some "guided" } with hP
      have hPkey : P.direction = "expense" → P.person = none := by
        rw [hP]
        intro hd
        dsimp only at hd ⊢
        rw [if_pos hd]
      by_cases hmode : (if flow.mode = "" then "add" else flow.mode) = "edit"
      · rw [if_pos hmode]
        cases htx : flow.tx_id with
        | none => dsimp only; exact hinv
        | some tid =>
          dsimp only
          by_cases hok : (!(update_transaction P uid tid s).1) = true
          · rw [if_pos hok]
            exact fun r hr => update_preserves_expense_inv P uid tid s hinv hPkey r hr
          · rw [if_neg hok]
            exact fun r hr => update_preserves_expense_inv P uid tid s hinv hPkey r hr
      · rw [if_neg hmode]
        rcases hins : insert_transaction P uid meta.update_id meta.chat_id
          meta.message_id now s with ⟨res, s2⟩
        cases res with
        | ok sid =>
          dsimp only
          intro r hr
          have hr2 : r ∈ s2.transactions := hr
          have hs2 : s2 = (insert_transaction P uid meta.update_id meta.chat_id
              meta.message_id now s).2 := by rw [hins]
          rw [hs2] at hr2
          exact insert_preserves_expense_inv P uid _ _ _ now s hinv hPkey r hr2
        | error e =>
          dsimp only
          intro r hr
          have hr2 : r ∈ s2.transactions := hr
          have hs2 : s2 = (insert_transaction P uid meta.update_id meta.chat_id
              meta.message_id now s).2 := by rw [hins]
          rw [hs2] at hr2
          exact insert_preserves_expense_inv P uid _ _ _ now s hinv hPkey r hr2

/-- C3 counterexample: on the free-text parser path the invariant fails.
`parse_message` applies its "from"-preposition counterparty heuristic
regardless of direction, so `"100 از بازار خرید"` parses to direction
`expense` with person `بازار`, and `handle_text` of `src/bot.py` commits
the parsed fields unchanged: the stored row has `direction = "expense"`
and a non-null person. -/
theorem C3_counterexample :
    parse_message (String.toList "100 از بازار خرید") =
      some ⟨100, "expense", some (String.toList "بازار")⟩ ∧
    ((bot_handle_text 5 ⟨some 99, some 10, some 11⟩
        (String.toList "100 از بازار خرید") 0 ⟨[], 1⟩).1.transactions.map
      (fun r => (r.direction, r.person))) =
      [("expense", some "بازار")] := by
  exact ⟨by decide, by decide⟩

/-- C3 amended, witness. -/
theorem C3_expense_person_guided_witness :
    (⟨1, 1, some 99, some 10, some 11, 50, "expense", none, "", "guided",
      0⟩ : TxRow).person = none :=
  C3_expense_person_guided 1 ⟨some 99, some 10, some 11⟩
    ⟨"add", none, "description", some "expense", none, some 50, none⟩ 0
    ⟨[], [], []⟩ (by simp)
    ⟨1, 1, some 99, some 10, some 11, 50, "expense", none, "", "guided", 0⟩
    (by decide) (by decide)

/-! ### Claim C4 -/

/-- C4: `get`/`update`/`delete` called with `(u, i)` where every stored
transaction numbered `i` belongs to a different user behave exactly as if
no such id existed: `get` returns absent, `update` and `delete` return
false, and the store is unmodified. -/
theorem C4_user_isolation (uid tid : Int) (p : ParsedFields) (s : DBState)
    (h : ∀ r ∈ s.transactions, r.user_tx_id = tid → r.user_id ≠ uid) :
    get_transaction uid tid s = none ∧
    delete_transaction uid tid s = (false, s) ∧
    update_transaction p uid tid s = (false, s) := by
  have hmiss : ∀ r ∈ s.transactions,
      (decide (r.user_tx_id = tid) && decide (r.user_id = uid)) = false := by
    intro r hr
    by_cases h1 : r.user_tx_id = tid
    · simp [h1, h r hr h1]
    · simp [h1]
  refine ⟨?_, ?_, ?_⟩
  · exact find?_eq_none_of_all _ _ fun r hr => by
      have := hmiss r hr
      by_cases h1 : r.user_id = uid <;> by_cases h2 : r.user_tx_id = tid <;>
        simp_all
  · have hkeep : s.transactions.filter
        (fun q => !(q.user_tx_id = tid && q.user_id = uid)) = s.transactions := by
      refine filter_eq_self_of_all _ _ fun r hr => ?_
      simp [hmiss r hr]
    simp only [delete_transaction, hkeep]
    simp
  · have hid : s.transactions.map (fun q =>
        if (q.user_tx_id = tid && q.user_id = uid : Bool) then
          { q with amount := p.amount, direction := p.direction,
                   person := p.person, description := p.description.getD "",
                   raw := p.raw.getD "" }
        else q) = s.transactions := by
      refine map_eq_self_of_all _ _ fun r hr => ?_
      simp [hmiss r hr]
    have hany : s.transactions.any
        (fun q => q.user_tx_id = tid && q.user_id = uid) = false :=
      any_eq_false_of_all _ _ fun r hr => hmiss r hr
    simp only [update_transaction, hany, hid]

/-- C4 witness. -/
theorem C4_user_isolation_witness :
    get_transaction 1 1
      ⟨[⟨2, 1, none, none, none, 5, "expense", none, "", "", 0⟩], [], []⟩ = none :=
  (C4_user_isolation 1 1 ⟨0, "expense", none, none, none⟩
    ⟨[⟨2, 1, none, none, none, 5, "expense", none, "", "", 0⟩], [], []⟩
    (by decide)).1

/-! ### Claim C9 -/

/-- C9: reading a user's dialogue state more than 24 hours after its
`updated_at` returns absent, and that same read deletes the stored row. -/
theorem C9_flow_ttl (uid : Int) (chat : Option Int) (now : Int) (s : DBState)
    (fr : FlowRow)
    (hfind : s.flows.find? (fun r => r.user_id = uid) = some fr)
    (hage : now - fr.updated_at > FLOW_TTL_SECONDS) :
    get_user_flow uid chat now s = (none, clear_user_flow uid s) ∧
    ((get_user_flow uid chat now s).2.flows.find?
      (fun r => r.user_id = uid)) = none := by
  have hres : get_user_flow uid chat now s = (none, clear_user_flow uid s) := by
    unfold get_user_flow
    rw [hfind]
    dsimp only
    by_cases hmm : chatMismatch chat fr.chat_id = true
    · rw [if_pos hmm]
    · rw [if_neg hmm, if_pos hage]
  refine ⟨hres, ?_⟩
  rw [hres]
  exact find?_eq_none_of_all _ _ fun r hr => by
    have := (List.mem_filter.mp hr).2
    simpa using this

theorem find?_some_mem {α} (p : α → Bool) (l : List α) (a : α)
    (h : l.find? p = some a) : a ∈ l ∧ p a = true := by
  induction l with
  | nil => cases h
  | cons x xs ih =>
    by_cases hx : p x = true
    · simp only [List.find?, hx] at h
      cases h
      exact ⟨List.mem_cons_self _ _, hx⟩
    · have hx' : p x = false := by simpa using hx
      simp only [List.find?, hx'] at h
      obtain ⟨hm, hp⟩ := ih h
      exact ⟨List.mem_cons_of_mem x hm, hp⟩

/-- `get_user_flow` never touches the transactions table. -/
theorem get_user_flow_transactions (uid : Int) (chat : Option Int) (now : Int)
    (s : DBState) : (get_user_flow uid chat now s).2.transactions = s.transactions := by
  unfold get_user_flow
  cases s.flows.find? (fun r => r.user_id = uid) with
  | none => rfl
  | some r =>
    dsimp only
    by_cases h1 : chatMismatch chat r.chat_id = true
    · rw [if_pos h1]; rfl
    · rw [if_neg h1]
      by_cases h2 : now - r.updated_at > FLOW_TTL_SECONDS
      · rw [if_pos h2]; rfl
      · rw [if_neg h2]

/-- `get_user_flow` never touches the counters table. -/
theorem get_user_flow_counters (uid : Int) (chat : Option Int) (now : Int)
    (s : DBState) : (get_user_flow uid chat now s).2.counters = s.counters := by
  unfold get_user_flow
  cases s.flows.find? (fun r => r.user_id = uid) with
  | none => rfl
  | some r =>
    dsimp only
    by_cases h1 : chatMismatch chat r.chat_id = true
    · rw [if_pos h1]; rfl
    · rw [if_neg h1]
      by_cases h2 : now - r.updated_at > FLOW_TTL_SECONDS
      · rw [if_pos h2]; rfl
      · rw [if_neg h2]

/-- A flow returned by `get_user_flow` is the flow of a stored row of that
user. -/
theorem get_user_flow_some (uid : Int) (chat : Option Int) (now : Int)
    (s : DBState) (f : Flow) (h : (get_user_flow uid chat now s).1 = some f) :
    ∃ fr ∈ s.flows, fr.user_id = uid ∧ fr.flow = f := by
  unfold get_user_flow at h
  cases hfind : s.flows.find? (fun r => r.user_id = uid) with
  | none => rw [hfind] at h; cases h
  | some r =>
    rw [hfind] at h
    dsimp only at h
    by_cases h1 : chatMismatch chat r.chat_id = true
    · rw [if_pos h1] at h; cases h
    · rw [if_neg h1] at h
      by_cases h2 : now - r.updated_at > FLOW_TTL_SECONDS
      · rw [if_pos h2] at h; cases h
      · rw [if_neg h2] at h
        obtain ⟨hm, hp⟩ := find?_some_mem _ _ _ hfind
        exact ⟨r, hm, of_decide_eq_true hp, Option.some.inj h⟩

/-! ### Claim C1 -/

theorem updIdConflict_false (q row : TxRow)
    (h : ∀ x, row.telegram_update_id = some x → ¬ q.telegram_update_id = some x) :
    updIdConflict q row = false := by
  unfold updIdConflict
  cases hr : row.telegram_update_id with
  | none => cases q.telegram_update_id <;> rfl
  | some a =>
    cases hq : q.telegram_update_id with
    | none => rfl
    | some b =>
      have hne : ¬ a = b := fun he => h a hr (by rw [hq, he])
      simp [hne]

theorem chatMsgConflict_false (q row : TxRow)
    (h : ∀ c m, row.telegram_chat_id = some c → row.telegram_message_id = some m →
        ¬(q.telegram_chat_id = some c ∧ q.telegram_message_id = some m)) :
    chatMsgConflict q row = false := by
  unfold chatMsgConflict
  cases hc : row.telegram_chat_id with
  | none =>
    cases row.telegram_message_id <;> cases q.telegram_chat_id <;>
      cases q.telegram_message_id <;> rfl
  | some c =>
    cases hm : row.telegram_message_id with
    | none => cases q.telegram_chat_id <;> cases q.telegram_message_id <;> rfl
    | some m =>
      cases hqc : q.telegram_chat_id with
      | none => cases q.telegram_message_id <;> rfl
      | some c2 =>
        cases hqm : q.telegram_message_id with
        | none => rfl
        | some m2 =>
          by_cases h1 : c = c2
          · have h2 : ¬ m = m2 := fun hm2 =>
              h c m hc hm ⟨by rw [hqc, h1], by rw [hqm, hm2]⟩
            simp [h2]
          · simp [h1]

theorem userTxConflict_false (q row : TxRow)
    (h : q.user_id = row.user_id → ¬ q.user_tx_id = row.user_tx_id) :
    userTxConflict q row = false := by
  unfold userTxConflict
  by_cases h1 : q.user_id = row.user_id
  · simp [h1, h h1]
  · simp [h1]

theorem txConflict_false (rows : List TxRow) (row : TxRow)
    (h1 : ∀ q ∈ rows, updIdConflict q row = false)
    (h2 : ∀ q ∈ rows, chatMsgConflict q row = false)
    (h3 : ∀ q ∈ rows, userTxConflict q row = false) :
    txConflict rows row = false :=
  any_eq_false_of_all _ _ fun q hq => by
    rw [h1 q hq, h2 q hq, h3 q hq]; rfl

/-- A fresh insert (no conflict with any stored row) appends its candidate
row, commits the counter increment, and returns the allocated id. -/
theorem insert_fresh (p : ParsedFields) (uid : Int)
    (tui tci tmi : Option Int) (t : Int) (s : DBState)
    (hA : txConflict s.transactions (insertRow p uid tui tci tmi t s) = false) :
    insert_transaction p uid tui tci tmi t s =
      (.ok (allocatedId s uid),
        { s with counters := setCounter s.counters uid (counterNext s.counters uid),
                 transactions := s.transactions ++ [insertRow p uid tui tci tmi t s] }) := by
  unfold insert_transaction
  dsimp only
  rw [hA]
  rfl

/-- C1: for the same user and the same non-null `telegram_update_id` (and
otherwise identical fields), two insert calls against a store holding no
row for that source event return the same user-scoped id, and afterwards
the store contains exactly one transaction row carrying that
`telegram_update_id`.  The freshness hypotheses say the dedup keys of the
call and the candidate user-scoped id are unused, which is what the unique
indexes guarantee for a first delivery. -/
theorem C1_insert_idempotent (s : DBState) (p : ParsedFields) (uid u : Int)
    (tci tmi : Option Int) (t1 t2 : Int)
    (h1 : ∀ r ∈ s.transactions, ¬ r.telegram_update_id = some u)
    (h2 : ∀ r ∈ s.transactions, ∀ c m, tci = some c → tmi = some m →
        ¬(r.telegram_chat_id = some c ∧ r.telegram_message_id = some m))
    (h3 : ∀ r ∈ s.transactions, r.user_id = uid →
        ¬ r.user_tx_id = allocatedId s uid) :
    (insert_transaction p uid (some u) tci tmi t1 s).1 =
      .ok (allocatedId s uid) ∧
    (insert_transaction p uid (some u) tci tmi t2
        (insert_transaction p uid (some u) tci tmi t1 s).2).1 =
      .ok (allocatedId s uid) ∧
    ((insert_transaction p uid (some u) tci tmi t2
        (insert_transaction p uid (some u) tci tmi t1 s).2).2.transactions.filter
      (fun r => r.telegram_update_id = some u)).length = 1 := by
  set row1 := insertRow p uid (some u) tci tmi t1 s with hrow1
  have hA : txConflict s.transactions row1 = false := by
    refine txConflict_false _ _ ?_ ?_ ?_
    · intro q hq
      refine updIdConflict_false q row1 fun x hx => ?_
      have : x = u := by
        have : some x = some u := by rw [← hx]; rfl
        exact Option.some.inj this
      rw [this]; exact h1 q hq
    · intro q hq
      refine chatMsgConflict_false q row1 fun c m hc hm => ?_
      exact h2 q hq c m (by rw [← hc]; rfl) (by rw [← hm]; rfl)
    · intro q hq
      refine userTxConflict_false q row1 fun hu => ?_
      exact h3 q hq (by rw [hu]; rfl)
  have hcall1 := insert_fresh p uid (some u) tci tmi t1 s hA
  rw [← hrow1] at hcall1
  set s1 : DBState :=
    { s with counters := setCounter s.counters uid (counterNext s.counters uid),
             transactions := s.transactions ++ [row1] } with hs1
  rw [hcall1]
  have hmem1 : row1 ∈ s1.transactions := by
    rw [hs1]
    exact List.mem_append_right _ (List.mem_singleton.mpr rfl)
  have hrow1u : row1.telegram_update_id = some u := rfl
  have hrow1uid : row1.user_id = uid := rfl
  have hrow1tx : row1.user_tx_id = allocatedId s uid := rfl
  have hB : txConflict s1.transactions
      (insertRow p uid (some u) tci tmi t2 s1) = true := by
    unfold txConflict
    rw [List.any_eq_true]
    refine ⟨row1, hmem1, ?_⟩
    have : updIdConflict row1 (insertRow p uid (some u) tci tmi t2 s1) = true := by
      unfold updIdConflict insertRow
      simp [hrow1u]
    simp [this]
  have hfind : s1.transactions.find?
      (fun q => q.telegram_update_id = some u && q.user_id = uid) = some row1 := by
    rw [hs1]
    rw [find?_append_right _ _ _ (fun q hq => by simp [h1 q hq])]
    simp [hrow1u, hrow1uid]
  have hdup : dupLookup uid (some u) tci tmi s1.transactions = some row1 := by
    unfold dupLookup
    dsimp only
    rw [hfind]
  have hcall2 : insert_transaction p uid (some u) tci tmi t2 s1 =
      (.ok row1.user_tx_id, s1) := by
    unfold insert_transaction
    dsimp only
    rw [hB, hdup]
    rfl
  refine ⟨rfl, ?_, ?_⟩
  · rw [hcall2, hrow1tx]
  · rw [hcall2]
    show (s1.transactions.filter (fun r => r.telegram_update_id = some u)).length = 1
    rw [hs1]
    show ((s.transactions ++ [row1]).filter
      (fun r => r.telegram_update_id = some u)).length = 1
    rw [List.filter_append,
      filter_eq_nil_of_all _ _ (fun q hq => by simp [h1 q hq])]
    simp [hrow1u]

/-- C1 witness. -/
theorem C1_insert_idempotent_witness :
    (insert_transaction ⟨100, "expense", none, some "bread", none⟩ 1
      (some 7) (some 10) (some 11) 0 ⟨[], [], []⟩).1 =
      .ok (allocatedId ⟨[], [], []⟩ 1) :=
  (C1_insert_idempotent ⟨[], [], []⟩ ⟨100, "expense", none, some "bread", none⟩
    1 7 (some 10) (some 11) 0 0 (by simp) (by simp) (by simp)).1

/-! ### Claim C2 -/

/-- C2 counterexample: in `insert_transaction`, the counter upsert runs
inside the same `conn.transaction()` block as the row insert, and the
duplicate path leaves that block by raising, which rolls the increment
back.  Concretely: after a first insert of source update 7 (allocating id
1 and leaving `next_tx_id = 2`), a second, suppressed insert of the same
update leaves `next_tx_id` at 2 — not at the incremented value 3 the claim
asserts — and the next insert is assigned id 2, so no gap arises. -/
theorem C2_counterexample :
    (counterLookup (insert_transaction ⟨100, "expense", none, some "bread", none⟩ 1
        (some 7) none none 0
        (insert_transaction ⟨100, "expense", none, some "bread", none⟩ 1
          (some 7) none none 0 ⟨[], [], []⟩).2).2.counters 1 = some 2 ∧
      ¬ counterLookup (insert_transaction ⟨100, "expense", none, some "bread", none⟩ 1
        (some 7) none none 0
        (insert_transaction ⟨100, "expense", none, some "bread", none⟩ 1
          (some 7) none none 0 ⟨[], [], []⟩).2).2.counters 1 = some 3) ∧
    (insert_transaction ⟨200, "expense", none, none, none⟩ 1 (some 8) none none 0
      (insert_transaction ⟨100, "expense", none, some "bread", none⟩ 1
        (some 7) none none 0
        (insert_transaction ⟨100, "expense", none, some "bread", none⟩ 1
          (some 7) none none 0 ⟨[], [], []⟩).2).2).1 = .ok 2 := by
  exact ⟨⟨rfl, by decide⟩, rfl⟩

/-- C2 amended: when the duplicate check suppresses an insert (a row with
the same non-null `telegram_update_id` already exists), the enclosing
database transaction is rolled back, so the suppressed call leaves the
entire store — the allocated counter value included — unchanged:
`next_tx_id` is restored rather than kept at the incremented value, and no
gap appears in the user's id sequence. -/
theorem C2_counter_rollback (p : ParsedFields) (uid u : Int)
    (tci tmi : Option Int) (t : Int) (s : DBState) (r : TxRow)
    (hr : r ∈ s.transactions) (hu : r.telegram_update_id = some u) :
    (insert_transaction p uid (some u) tci tmi t s).2 = s := by
  unfold insert_transaction
  have hconf : txConflict s.transactions
      (insertRow p uid (some u) tci tmi t s) = true := by
    unfold txConflict
    rw [List.any_eq_true]
    refine ⟨r, hr, ?_⟩
    unfold updIdConflict insertRow
    simp [hu]
  dsimp only
  rw [if_pos hconf]
  split <;> rfl

/-- C2 amended, witness. -/
theorem C2_counter_rollback_witness :
    (insert_transaction ⟨100, "expense", none, none, none⟩ 1 (some 7) none none 0
        ⟨[⟨1, 1, some 7, none, none, 100, "expense", none, "", "", 0⟩],
          [(1, 2)], []⟩).2 =
      ⟨[⟨1, 1, some 7, none, none, 100, "expense", none, "", "", 0⟩],
        [(1, 2)], []⟩ :=
  C2_counter_rollback ⟨100, "expense", none, none, none⟩ 1 7 none none 0 _
    ⟨1, 1, some 7, none, none, 100, "expense", none, "", "", 0⟩
    (List.mem_singleton.mpr rfl) rfl

/-! ### Claim C8 -/

/-- C8: a commit attempt from the guided flow with direction `payable` or
`receivable`, an amount present, and a blank `person` inserts or updates
nothing; the dialogue state is re-saved with its step set back to `person`
(all other fields unchanged) and the user is re-prompted for the
counterparty. -/
theorem C8_person_required (uid : Int) (meta : UpdateMeta) (flow : Flow)
    (now : Int) (s : DBState) (a : Int)
    (hdir : flow.direction = some "payable" ∨ flow.direction = some "receivable")
    (hamt : flow.amount = some a)
    (hperson : (pyStrip (flow.person.getD "").toList).isEmpty = true) :
    saveAndReply uid meta flow now s =
      (set_user_flow { flow with step := "person" } uid meta.chat_id now s,
        .counterpartyRequired { flow with step := "person" }) ∧
    (saveAndReply uid meta flow now s).1.transactions = s.transactions := by
  have hp : pyStrip (flow.person.getD "").data = [] := by
    have h2 : pyStrip (flow.person.getD "").toList = [] :=
      List.isEmpty_iff.mp hperson
    exact h2
  have hres : saveAndReply uid meta flow now s =
      (set_user_flow { flow with step := "person" } uid meta.chat_id now s,
        .counterpartyRequired { flow with step := "person" }) := by
    unfold saveAndReply
    rcases hdir with hdir | hdir <;> simp [hdir, hamt, hp]
  exact ⟨hres, by rw [hres]; rfl⟩

/-- C8 witness. -/
theorem C8_person_required_witness :
    saveAndReply 1 ⟨some 99, some 10, some 11⟩
        ⟨"add", none, "description", some "payable", some "  ", some 50, none⟩ 0
        ⟨[], [], []⟩ =
      (set_user_flow
          ⟨"add", none, "person", some "payable", some "  ", some 50, none⟩
          1 (some 10) 0 ⟨[], [], []⟩,
        .counterpartyRequired
          ⟨"add", none, "person", some "payable", some "  ", some 50, none⟩) :=
  (C8_person_required 1 ⟨some 99, some 10, some 11⟩
    ⟨"add", none, "description", some "payable", some "  ", some 50, none⟩ 0
    ⟨[], [], []⟩ 50 (.inl rfl) rfl (by decide)).1

/-! ### Claim C5 -/

/-- Steps other than `description` never touch the transactions table in
`handle_text`'s flow dispatch. -/
theorem handle_text_flow_transactions (uid : Int) (meta : UpdateMeta)
    (raw_text : Str) (flow : Flow) (now : Int) (s1 : DBState)
    (hstep : ¬ flow.step = "description") :
    (handle_text_flow uid meta raw_text flow now s1).1.transactions =
      s1.transactions := by
  unfold handle_text_flow
  dsimp only
  repeat' (first | rfl | split)

/-- Steps other than `description` never touch the transactions table in
`add_buttons`'s action dispatch. -/
theorem add_buttons_action_transactions (uid : Int) (meta : UpdateMeta)
    (action : Str) (flow : Flow) (now : Int) (s2 : DBState)
    (hstep : ¬ flow.step = "description") :
    (add_buttons_action uid meta action flow now s2).1.transactions =
      s2.transactions := by
  unfold add_buttons_action
  dsimp only
  repeat' (first | rfl | split)
  all_goals simp_all

/-- C5 counterexample: there is no confirm step.  With a stored flow at
step `description` (direction `expense`, amount 50 collected), sending the
text `pizza` does not advance to a confirm step presenting the proposal —
it immediately validates and commits: one transaction row is written and
the dialogue state is deleted in the same processing step. -/
theorem C5_counterexample :
    ((handle_text 1 ⟨some 99, some 10, some 11⟩ ("pizza".toList) 0
        ⟨[], [],
          [⟨1, some 10,
            ⟨"add", none, "description", some "expense", none, some 50, none⟩,
            0⟩]⟩).1.transactions.map
      (fun r => (r.amount, r.direction, r.description))) =
        [(50, "expense", "pizza")] ∧
    (handle_text 1 ⟨some 99, some 10, some 11⟩ ("pizza".toList) 0
        ⟨[], [],
          [⟨1, some 10,
            ⟨"add", none, "description", some "expense", none, some 50, none⟩,
            0⟩]⟩).1.flows = [] := by
  exact ⟨by decide, by decide⟩

/-- C5 amended: the guided flow has no confirm step — description-step
input is what validates and commits — and a transaction row is written
only by description-step processing: whenever the user's stored dialogue
state (if any) is at a step other than `description`, processing any text
or any `add:` callback leaves the transactions table unchanged. -/
theorem C5_no_commit_outside_description (uid : Int) (meta : UpdateMeta)
    (text data : Str) (now : Int) (s : DBState)
    (h : ∀ fr ∈ s.flows, fr.user_id = uid → ¬ fr.flow.step = "description") :
    (handle_text uid meta text now s).1.transactions = s.transactions ∧
    (add_buttons uid meta data now s).1.transactions = s.transactions := by
  constructor
  · unfold handle_text
    dsimp only
    by_cases hpc : probablyCommand (pyStrip text) = true
    · rw [if_pos hpc]
    · rw [if_neg hpc]
      rcases hgf : get_user_flow uid meta.chat_id now s with ⟨flowOpt, s1⟩
      have hs1 : s1.transactions = s.transactions := by
        have h0 := get_user_flow_transactions uid meta.chat_id now s
        rw [hgf] at h0
        exact h0
      cases flowOpt with
      | none =>
        dsimp only
        by_cases hg : greetingMatch (pyStrip text) = true
        · rw [if_pos hg]; exact hs1
        · rw [if_neg hg]; exact hs1
      | some flow =>
        dsimp only
        have hsome : (get_user_flow uid meta.chat_id now s).1 = some flow := by
          rw [hgf]
        obtain ⟨fr, hmem, huid, hflow⟩ := get_user_flow_some _ _ _ _ _ hsome
        have hstep : ¬ flow.step = "description" := by
          rw [← hflow]
          exact h fr hmem huid
        rw [handle_text_flow_transactions uid meta _ flow now s1 hstep]
        exact hs1
  · unfold add_buttons
    dsimp only
    cases hdl : dropLit "add:".toList (pyStrip data) with
    | none => rfl
    | some action =>
      dsimp only
      rcases hgf : get_user_flow uid meta.chat_id now s with ⟨flowOpt, s1⟩
      have hs1 : s1.transactions = s.transactions := by
        have h0 := get_user_flow_transactions uid meta.chat_id now s
        rw [hgf] at h0
        exact h0
      cases flowOpt with
      | some f =>
        dsimp only
        have hsome : (get_user_flow uid meta.chat_id now s).1 = some f := by
          rw [hgf]
        obtain ⟨fr, hmem, huid, hflow⟩ := get_user_flow_some _ _ _ _ _ hsome
        have hstep : ¬ f.step = "description" := by
          rw [← hflow]
          exact h fr hmem huid
        rw [add_buttons_action_transactions uid meta action f now s1 hstep]
        exact hs1
      | none =>
        dsimp only
        have hstep : ¬ (new_flow "add" none).step = "description" := by decide
        rw [add_buttons_action_transactions uid meta action _ now _ hstep]
        exact hs1

/-- C5 amended, witness. -/
theorem C5_no_commit_outside_description_witness :
    (handle_text 1 ⟨some 99, some 10, some 11⟩ ("300".toList) 0
        ⟨[], [],
          [⟨1, some 10,
            ⟨"add", none, "amount", some "expense", none, none, none⟩,
            0⟩]⟩).1.transactions = [] ∧
    (add_buttons 1 ⟨some 99, some 10, some 11⟩ ("add:amount:ok".toList) 0
        ⟨[], [],
          [⟨1, some 10,
            ⟨"add", none, "amount", some "expense", none, none, none⟩,
            0⟩]⟩).1.transactions = [] :=
  C5_no_commit_outside_description 1 ⟨some 99, some 10, some 11⟩
    ("300".toList) ("add:amount:ok".toList) 0
    ⟨[], [],
      [⟨1, some 10,
        ⟨"add", none, "amount", some "expense", none, none, none⟩, 0⟩]⟩
    (by decide)

/-- C9 witness. -/
theorem C9_flow_ttl_witness :
    get_user_flow 1 (some 10) 86401
        ⟨[], [], [⟨1, some 10, new_flow "add" none, 0⟩]⟩ =
      (none, clear_user_flow 1 ⟨[], [], [⟨1, some 10, new_flow "add" none, 0⟩]⟩) :=
  (C9_flow_ttl 1 (some 10) 86401
    ⟨[], [], [⟨1, some 10, new_flow "add" none, 0⟩]⟩
    ⟨1, some 10, new_flow "add" none, 0⟩ (by decide) (by decide)).1

/-! ### Claims C6 and C10 -/

/-- The `extract_amount` loop returns the value of the first candidate the
rejection test does not skip. -/
theorem amountLoop_eq_find (ms : List AmountMatch) :
    amountLoop ms =
      (ms.find? (fun m => !listIndexReject m)).map (fun m => runVal m.run) := by
  induction ms with
  | nil => rfl
  | cons m rest ih =>
    unfold amountLoop
    by_cases hpre : (pyStrip m.before).isEmpty = true
    · have hc : (!(pyStrip m.before).isEmpty) = false := by rw [hpre]; rfl
      rw [if_neg (by rw [hc]; exact Bool.false_ne_true)]
      by_cases hrej : listIndexReject m = true
      · rw [if_pos hrej, ih]
        have hp : (fun m' => !listIndexReject m') m = false := by
          show (!listIndexReject m) = false
          rw [hrej]; rfl
        simp only [List.find?, hp]
      · have hb : listIndexReject m = false := by
          revert hrej; cases listIndexReject m <;> simp
        rw [if_neg hrej]
        have hp : (fun m' => !listIndexReject m') m = true := by
          show (!listIndexReject m) = true
          rw [hb]; rfl
        simp only [List.find?, hp]
        rfl
    · have hb : (pyStrip m.before).isEmpty = false := by
        revert hpre; cases (pyStrip m.before).isEmpty <;> simp
      rw [if_pos (by rw [hb]; rfl)]
      have hrej : listIndexReject m = false := by
        unfold listIndexReject; rw [hb]; rfl
      have hp : (fun m' => !listIndexReject m') m = true := by
        show (!listIndexReject m) = true
        rw [hrej]; rfl
      simp only [List.find?, hp]
      rfl

/-- `extract_amount` fails exactly when the text has no digit run of
length 1-12 at all. -/
theorem extract_amount_none_iff (t : Str) :
    extract_amount t = none ↔ amountMatches t = [] := by
  unfold extract_amount
  cases hm : amountMatches t with
  | nil => simp
  | cons m0 rest =>
    dsimp only
    cases amountLoop (m0 :: rest) <;> simp

/-- C6: `extract_amount` scans the maximal runs of 1-12 ASCII digits of
the normalized text in order and returns the first candidate that is not
rejected; a candidate is rejected only when it is immediately followed by
`.` or `٫` that is itself followed by whitespace or a letter; with no
candidate at all, `parse_message`'s amount extraction fails; and
`"2. edit 500"` yields amount 500, not 2. -/
theorem C6_amount_extraction (t : Str) :
    (∀ m ∈ amountMatches t, listIndexReject m = true → dotCond m.after = true) ∧
    (∀ m, (amountMatches t).find? (fun m' => !listIndexReject m') = some m →
        extract_amount t = some (runVal m.run)) ∧
    (extract_amount t = none ↔ amountMatches t = []) ∧
    (parse_message ("2. edit 500".toList)).map (fun p => p.amount) = some 500 := by
  refine ⟨?_, ?_, extract_amount_none_iff t, by decide⟩
  · intro m _ hrej
    unfold listIndexReject at hrej
    exact (Bool.and_eq_true _ _).mp hrej |>.2
  · intro m hfind
    unfold extract_amount
    cases hm : amountMatches t with
    | nil => rw [hm] at hfind; cases hfind
    | cons m0 rest =>
      dsimp only
      rw [hm] at hfind
      rw [amountLoop_eq_find, hfind]
      rfl

/-- C6 witness. -/
theorem C6_amount_extraction_witness :
    dotCond (String.toList ". hello") = true ∧
    extract_amount ("2. edit 500".toList) = some (runVal ("500".toList)) := by
  constructor
  · exact (C6_amount_extraction ("2. hello".toList)).1
      ⟨[], "2".toList, ". hello".toList⟩ (by decide) (by decide)
  · exact (C6_amount_extraction ("2. edit 500".toList)).2.1
      ⟨"2. edit ".toList, "500".toList, []⟩ (by decide)

/-- C10: whenever the text has at least one digit run of length 1-12,
`extract_amount` never returns `none`; if every candidate is rejected by
the list-index rule, the value of the first run is returned anyway (so
`"2. hello"` yields amount 2); and `parse_message` fails with
no-amount-found exactly when the normalized text has no such run at all. -/
theorem C10_reject_fallback (t raw : Str) :
    (amountMatches t ≠ [] → extract_amount t ≠ none) ∧
    (∀ m0 rest, amountMatches t = m0 :: rest →
      (∀ m ∈ amountMatches t, listIndexReject m = true) →
      extract_amount t = some (runVal m0.run)) ∧
    (parse_message raw = none ↔ amountMatches (normalize_digits raw) = []) ∧
    extract_amount ("2. hello".toList) = some 2 := by
  refine ⟨?_, ?_, ?_, by decide⟩
  · intro hne
    rw [Ne, extract_amount_none_iff]
    exact hne
  · intro m0 rest hm hall
    unfold extract_amount
    rw [hm]
    dsimp only
    rw [amountLoop_eq_find]
    have hfind : (m0 :: rest).find? (fun m' => !listIndexReject m') = none := by
      apply find?_eq_none_of_all
      intro x hx
      rw [hall x (hm ▸ hx)]
      rfl
    rw [hfind]
    rfl
  · unfold parse_message
    dsimp only
    rw [Option.map_eq_none']
    exact extract_amount_none_iff _

/-- C10 witness. -/
theorem C10_reject_fallback_witness :
    extract_amount ("2. hello".toList) = some (runVal ("2".toList)) ∧
    (parse_message ("hello".toList) = none ↔
      amountMatches (normalize_digits ("hello".toList)) = []) :=
  ⟨(C10_reject_fallback ("2. hello".toList) []).2.1
      ⟨[], "2".toList, ". hello".toList⟩ [] (by decide) (by decide),
   (C10_reject_fallback [] ("hello".toList)).2.2.1⟩

/-! ### Claim C7 -/

/-- The replacement the claim quantifies over: each Persian
(`FA_TO_EN_DIGITS`) or Arabic-Indic (`AR_TO_EN_DIGITS`) digit glyph
becomes the corresponding ASCII digit, all other characters unchanged. -/
def digitToAscii (c : Char) : Char := arToEn (faToEn c)

theorem normalize_digits_eq_map (s : Str) :
    normalize_digits s = s.map digitToAscii := by
  unfold normalize_digits
  rw [List.map_map]
  rfl

theorem digitToAscii_idem (c : Char) :
    digitToAscii (digitToAscii c) = digitToAscii c := by
  by_cases h0 : c = '۰'
  · subst h0; decide
  by_cases h1 : c = '۱'
  · subst h1; decide
  by_cases h2 : c = '۲'
  · subst h2; decide
  by_cases h3 : c = '۳'
  · subst h3; decide
  by_cases h4 : c = '۴'
  · subst h4; decide
  by_cases h5 : c = '۵'
  · subst h5; decide
  by_cases h6 : c = '۶'
  · subst h6; decide
  by_cases h7 : c = '۷'
  · subst h7; decide
  by_cases h8 : c = '۸'
  · subst h8; decide
  by_cases h9 : c = '۹'
  · subst h9; decide
  by_cases g0 : c = '٠'
  · subst g0; decide
  by_cases g1 : c = '١'
  · subst g1; decide
  by_cases g2 : c = '٢'
  · subst g2; decide
  by_cases g3 : c = '٣'
  · subst g3; decide
  by_cases g4 : c = '٤'
  · subst g4; decide
  by_cases g5 : c = '٥'
  · subst g5; decide
  by_cases g6 : c = '٦'
  · subst g6; decide
  by_cases g7 : c = '٧'
  · subst g7; decide
  by_cases g8 : c = '٨'
  · subst g8; decide
  by_cases g9 : c = '٩'
  · subst g9; decide
  have e1 : faToEn c = c := by
    unfold faToEn
    rw [if_neg h0, if_neg h1, if_neg h2, if_neg h3, if_neg h4, if_neg h5,
      if_neg h6, if_neg h7, if_neg h8, if_neg h9]
  have e2 : arToEn c = c := by
    unfold arToEn
    rw [if_neg g0, if_neg g1, if_neg g2, if_neg g3, if_neg g4, if_neg g5,
      if_neg g6, if_neg g7, if_neg g8, if_neg g9]
  unfold digitToAscii
  rw [e1, e2, e1, e2]

theorem normalize_digits_map_invariant (s : Str) :
    normalize_digits (s.map digitToAscii) = normalize_digits s := by
  rw [normalize_digits_eq_map, normalize_digits_eq_map, List.map_map]
  simp only [Function.comp_def, digitToAscii_idem]

/-- C7: replacing each Persian or Arabic-Indic digit glyph of the input by
the corresponding ASCII digit does not change the amount, direction, or
person `parse_message` produces; in particular the Persian-digit and the
ASCII-digit spelling of "150 toman Mamad must pay me" both parse to
amount 150, direction receivable, person `ممد`. -/
theorem C7_digit_script_invariance (raw : Str) :
    parse_message (raw.map digitToAscii) = parse_message raw ∧
    parse_message (String.toList "۱۵۰ تومن ممد باید بهم بده") =
      some ⟨150, "receivable", some (String.toList "ممد")⟩ ∧
    parse_message (String.toList "150 تومن ممد باید بهم بده") =
      some ⟨150, "receivable", some (String.toList "ممد")⟩ := by
  refine ⟨?_, by decide, by decide⟩
  unfold parse_message
  rw [normalize_digits_map_invariant]

end ExpensesBot
